import Mathlib

/-!
Verification development for the AWS resource-management CLI
(meitavEini/Platform-Engineering-Python).

The repository is an interactive tool wrapping boto3 calls for EC2
instances, S3 buckets and Route 53 hosted zones.  This file gives a
shallow embedding of the pure logic and of the interactive flows of
`src/aws_manager.py`, `src/resources/ec2.py`, `src/resources/s3.py` and
`src/resources/route53.py`:

* pure predicates (`is_valid_bucket_name`, the ownership-tag checks,
  `check_running_instances`, the TXT-value quoting) become Lean
  functions on lists and strings;
* each interactive flow becomes a function from an environment (the
  provider-side state the boto3 calls would observe, plus flags saying
  which provider calls raise) and a script (the user's answers to the
  prompts, with re-prompting loops modelled by a list of successive
  entries) to a `FlowResult`: the ordered list of provider API calls the
  flow issues, tagged with whether the flow returned normally, the
  process exited on user request, or an uncaught exception propagated.

Theorems about these definitions settle the specification claims.
-/

namespace AwsCli

/-- Modelled from the spec: the shared configuration module
(`resources/config.py`) is not among the sources.  The spec names an
"owner tag value used to scope ownership"; the source docstrings
(e.g. `src/resources/s3.py` line 273) fix the value `cli-meitaveini`
for the `CreatedBy` tag. -/
def OWNER_NAME : String := "cli-meitaveini"

/-- Modelled from the spec: AMI id of the Ubuntu OS family from the
missing configuration module ("AMI ids for two fixed OS families");
the concrete value is opaque, only its identity matters. -/
def UBUNTU_AMI : String := "ami-ubuntu"

/-- Modelled from the spec: AMI id of the Amazon Linux OS family from
the missing configuration module; the concrete value is opaque. -/
def AMAZON_LINUX_AMI : String := "ami-amazon-linux"

/-- Modelled from the spec: first fixed instance-size identifier; the
prompt text in `src/resources/ec2.py` line 248 names it `t3.nano`. -/
def INSTANCE_TYPE_T3 : String := "t3.nano"

/-- Modelled from the spec: second fixed instance-size identifier; the
prompt text in `src/resources/ec2.py` line 248 names it `t4g.nano`. -/
def INSTANCE_TYPE_T4G : String := "t4g.nano"

/-- A resource tag: one `{'Key': ..., 'Value': ...}` entry. -/
structure Tag where
  key : String
  value : String
deriving DecidableEq, Repr

/-! Section: String helpers (Python string operations on `List Char`) -/

/-- Lowercase letter or digit: the character class `[a-z0-9]` used for
both anchors of the bucket-name regex. -/
def isLowerAlnum (c : Char) : Bool :=
  ('a' ≤ c && c ≤ 'z') || ('0' ≤ c && c ≤ '9')

/-- The interior character class `[a-z0-9.-]` of the bucket-name regex. -/
def isNameChar (c : Char) : Bool :=
  isLowerAlnum c || c == '.' || c == '-'

/-- Python `str.startswith` on character lists. -/
def startsWithL : List Char → List Char → Bool
  | _, [] => true
  | [], _ :: _ => false
  | c :: cs, d :: ds => c == d && startsWithL cs ds

/-- Python substring membership (the `in` operator) on character lists. -/
def containsL : List Char → List Char → Bool
  | [], sub => sub.isEmpty
  | c :: cs, sub => startsWithL (c :: cs) sub || containsL cs sub

/-- Python `str.endswith` on character lists. -/
def endsWithL (s p : List Char) : Bool :=
  startsWithL s.reverse p.reverse

/-- The tail `[a-z0-9.-]*[a-z0-9]` of the bucket-name regex: zero or
more interior characters followed by one closing alphanumeric. -/
def regexTail : List Char → Bool
  | [] => false
  | [c] => isLowerAlnum c
  | c :: cs => isNameChar c && regexTail cs

/-- The body `[a-z0-9][a-z0-9.-]*[a-z0-9]` of the regex of
`src/resources/s3.py` line 25, matched against an entire string. -/
def regexMatchBody : List Char → Bool
  | [] => false
  | c :: cs => isLowerAlnum c && regexTail cs

/-- Python `re.match` of the anchored regex
`^[a-z0-9][a-z0-9.-]*[a-z0-9]$` from `src/resources/s3.py` line 25.
In Python (without `re.MULTILINE`) the `$` anchor matches at the end of
the string and also just before a newline that ends the string, so the
pattern accepts a string whenever its body matches the whole string or
the whole string minus one trailing newline. -/
def regexMatch (cs : List Char) : Bool :=
  regexMatchBody cs ||
    (match cs.getLast? with
     | some c => c == '\n' && regexMatchBody cs.dropLast
     | none => false)

/-- Translation of `is_valid_bucket_name` from `src/resources/s3.py` lines 9-38,
translated clause by clause: length bound, regex, forbidden pairs,
reserved prefixes, reserved substrings. -/
def is_valid_bucket_name (bucket_name : String) : Bool :=
  let cs := bucket_name.data
  if !(decide (3 ≤ cs.length) && decide (cs.length ≤ 63)) then false
  else if !regexMatch cs then false
  else if containsL cs "..".data || containsL cs ".-".data || containsL cs "-.".data then false
  else if startsWithL cs "xn--".data || startsWithL cs "sthree-".data then false
  else if containsL cs "aws".data || containsL cs "s3".data then false
  else true

/-- First character is not a dot or hyphen (spec wording "does not
start with a dot or hyphen"). -/
def firstCharOk : List Char → Bool
  | [] => true
  | c :: _ => !(c == '.' || c == '-')

/-- Last character is not a dot or hyphen (spec wording "does not end
with a dot or hyphen"). -/
def lastCharOk (cs : List Char) : Bool :=
  match cs.getLast? with
  | none => true
  | some c => !(c == '.' || c == '-')

/-- The bucket-name rules exactly as the claim words them: length 3-63,
only lowercase letters, digits, dots and hyphens, no leading or
trailing dot or hyphen, none of the substrings `..`, `.-`, `-.`, no
reserved prefix `xn--` or `sthree-`, and no occurrence of `aws` or
`s3`.  This is the specification side of the refinement claim, to be
compared with `is_valid_bucket_name` translated from the source. -/
def specValidBucketName (s : String) : Bool :=
  let cs := s.data
  (decide (3 ≤ cs.length) && decide (cs.length ≤ 63))
  && cs.all isNameChar
  && firstCharOk cs && lastCharOk cs
  && !containsL cs "..".data && !containsL cs ".-".data && !containsL cs "-.".data
  && !startsWithL cs "xn--".data && !startsWithL cs "sthree-".data
  && !containsL cs "aws".data && !containsL cs "s3".data

/-! Section: Equivalence of the regex with the character-wise rules -/

theorem isNameChar_decomp (c : Char) :
    isLowerAlnum c = (isNameChar c && !(c == '.' || c == '-')) := by
  by_cases h1 : c = '.'
  · subst h1; decide
  · by_cases h2 : c = '-'
    · subst h2; decide
    · have hd : (c == '.') = false := beq_eq_false_iff_ne.mpr h1
      have hh : (c == '-') = false := beq_eq_false_iff_ne.mpr h2
      simp [isNameChar, hd, hh]

theorem regexTail_concat (mid : List Char) (c : Char) :
    regexTail (mid ++ [c]) = (mid.all isNameChar && isLowerAlnum c) := by
  induction mid with
  | nil => simp [regexTail]
  | cons d ds ih =>
    cases ds with
    | nil => simp [regexTail]
    | cons e es =>
      simp only [List.cons_append, List.append_eq, regexTail, List.all_cons] at ih ⊢
      rw [ih]
      simp [Bool.and_assoc]

theorem regexMatchBody_concat (a : Char) (mid : List Char) (c : Char) :
    regexMatchBody (a :: (mid ++ [c]))
      = (isLowerAlnum a && mid.all isNameChar && isLowerAlnum c) := by
  simp [regexMatchBody, regexTail_concat, Bool.and_assoc]

theorem regexMatch_eq_body_of_no_newline (cs : List Char)
    (h : cs.getLast? ≠ some '\n') : regexMatch cs = regexMatchBody cs := by
  unfold regexMatch
  cases hg : cs.getLast? with
  | none => simp
  | some c =>
    have hc : (c == '\n') = false := by
      refine beq_eq_false_iff_ne.mpr ?_
      intro he
      exact h (by rw [hg, he])
    simp [hc]

theorem regexMatchBody_eq_charwise (a : Char) (mid : List Char) (c : Char) :
    regexMatchBody (a :: (mid ++ [c]))
      = ((a :: (mid ++ [c])).all isNameChar
          && firstCharOk (a :: (mid ++ [c]))
          && lastCharOk (a :: (mid ++ [c]))) := by
  have hlast : (a :: (mid ++ [c])).getLast? = some c := by
    rw [show a :: (mid ++ [c]) = (a :: mid) ++ [c] by simp]
    exact List.getLast?_concat _
  rw [regexMatchBody_concat, isNameChar_decomp a, isNameChar_decomp c]
  simp only [List.all_cons, List.all_append, List.all_cons, List.all_nil,
    firstCharOk, lastCharOk, hlast]
  generalize isNameChar a = A
  generalize (a == '.' || a == '-') = da
  generalize mid.all isNameChar = M
  generalize isNameChar c = C
  generalize (c == '.' || c == '-') = dc
  cases A <;> cases da <;> cases M <;> cases C <;> cases dc <;> rfl

theorem guard_chain_eq (b1 b2 b3 b4 b5 : Bool) :
    (if !b1 then false else if !b2 then false
      else if b3 then false else if b4 then false else if b5 then false
      else true)
      = (b1 && b2 && !b3 && !b4 && !b5) := by
  cases b1 <;> cases b2 <;> cases b3 <;> cases b4 <;> cases b5 <;> rfl

/-- Counterexample to C2 as stated: the source validator accepts the
string `ab` followed by a newline.  Python `re.match`'s `$` matches
just before a trailing newline, so the regex body matches `ab` and
every later check passes, while the claim's rules (only lowercase
letters, digits, dots and hyphens) reject the string. -/
theorem c2_counterexample_trailing_newline :
    is_valid_bucket_name "ab\n" = true
    ∧ specValidBucketName "ab\n" = false := by
  decide

/-- C2 as amended: for every string that does not end with a newline,
`is_valid_bucket_name` returns true exactly under the claim's rules
(length 3 to 63, only lowercase letters, digits, dots and hyphens, no
leading or trailing dot or hyphen, none of the substrings `..`, `.-`,
`-.`, no reserved prefix `xn--` or `sthree-`, and no occurrence of
`aws` or `s3`); the four examples are unchanged; and a string ending in
a newline is accepted whenever the part before the newline matches the
anchored pattern, because Python's `$` also matches before a trailing
newline. -/
theorem c2_bucket_name_validator :
    (∀ s : String, s.data.getLast? ≠ some '\n' →
        is_valid_bucket_name s = specValidBucketName s)
    ∧ is_valid_bucket_name "ab" = false
    ∧ is_valid_bucket_name "aws-bucket" = false
    ∧ is_valid_bucket_name "a..b" = false
    ∧ is_valid_bucket_name "my-data.bucket" = true
    ∧ is_valid_bucket_name "ab\n" = true := by
  refine ⟨?_, by decide, by decide, by decide, by decide, by decide⟩
  intro s hnl
  by_cases hlen : 3 ≤ s.data.length
  case neg =>
    have h : decide (3 ≤ s.data.length) = false := decide_eq_false hlen
    simp only [is_valid_bucket_name, specValidBucketName]
    rw [guard_chain_eq]
    simp only [h, Bool.false_and]
  case pos =>
    obtain ⟨a, t, ht⟩ : ∃ a t, s.data = a :: t := by
      cases hd : s.data with
      | nil => rw [hd] at hlen; simp at hlen
      | cons a t => exact ⟨a, t, rfl⟩
    obtain ⟨mid, c, hmc⟩ : ∃ mid c, t = mid ++ [c] := by
      rcases List.eq_nil_or_concat t with h | ⟨mid, c, h⟩
      · subst h; rw [ht] at hlen; simp at hlen
      · exact ⟨mid, c, by rw [h, List.concat_eq_append]⟩
    subst hmc
    rw [ht] at hnl
    simp only [is_valid_bucket_name, specValidBucketName, ht]
    rw [guard_chain_eq, regexMatch_eq_body_of_no_newline _ hnl,
      regexMatchBody_eq_charwise]
    simp only [Bool.not_or, Bool.and_assoc]

/-- Witness for C2 (amended) at a concrete input: `my-data.bucket` has
no trailing newline and the validator agrees with the rule predicate
there. -/
theorem c2_bucket_name_validator_witness :
    ("my-data.bucket" : String).data.getLast? ≠ some '\n'
    ∧ is_valid_bucket_name "my-data.bucket" = specValidBucketName "my-data.bucket" :=
  ⟨by decide, c2_bucket_name_validator.1 "my-data.bucket" (by decide)⟩

/-! Section: Flow infrastructure -/

/-- One DNS record set as the tool reads and writes it: `Name`, `Type`,
`TTL` and the single `ResourceRecords[0]['Value']` the source uses. -/
structure DnsRecord where
  name : String
  rtype : String
  ttl : Nat
  value : String
deriving DecidableEq, Repr

/-- One call into the provider API, in the order the flows issue them. -/
inductive ApiCall where
  | describeInstances
  | startInstance (id : String)
  | stopInstance (id : String)
  | terminateInstance (id : String)
  | createInstance (imageId instanceType name : String) (tags : List Tag)
  | listBuckets
  | getBucketTagging (bucket : String)
  | listObjects (bucket : String)
  | deleteObject (bucket key : String)
  | deleteBucket (bucket : String)
  | listHostedZones
  | listZoneTags (zoneId : String)
  | listRecordSets (zoneId : String)
  | changeRecord (zoneId action : String) (record : DnsRecord)
  | deleteHostedZone (zoneId : String)
deriving DecidableEq, Repr

/-- Outcome of one interactive flow: the provider calls it issued, and
whether it returned to the menu (`ok`, which includes caught-and-printed
provider errors), terminated the process at the user's request
(`exited`), or let an exception propagate uncaught out of the flow
(`crashed`, which terminates the process since no caller catches). -/
inductive FlowResult where
  | ok (calls : List ApiCall)
  | exited (calls : List ApiCall)
  | crashed (calls : List ApiCall)
deriving DecidableEq, Repr

/-- The provider calls a flow issued, regardless of how it ended. -/
def FlowResult.calls : FlowResult → List ApiCall
  | .ok cs => cs
  | .exited cs => cs
  | .crashed cs => cs

/-- A provider call issued as the last provider action inside a
`try` block whose `except` clause only prints the error and lets the
function return.  The call is attempted either way; on failure the
exception is caught, so failure and success issue the same calls and
both end the operation normally — they differ only in the message
printed.  `fails` says whether the provider raises on this call. -/
def caughtCall (fails : Bool) (calls : List ApiCall) (call : ApiCall) : FlowResult :=
  if fails then FlowResult.ok (calls ++ [call])
  else FlowResult.ok (calls ++ [call])

theorem caughtCall_eq (fails : Bool) (calls : List ApiCall) (call : ApiCall) :
    caughtCall fails calls call = FlowResult.ok (calls ++ [call]) := by
  unfold caughtCall
  exact ite_self _

/-- One entry typed at a numbered-selection prompt: `q`, or a number.
Non-numeric junk only re-prompts, exactly like an out-of-range number,
so it needs no separate constructor. -/
inductive SelEntry where
  | quit
  | num (n : Nat)
deriving DecidableEq, Repr

/-- The numbered-selection loop used throughout `route53.py`: `q`
cancels, a number `n` with `1 <= n <= len(xs)` picks `xs[n-1]`, and
anything else re-prompts with the next scripted entry. -/
def selectFrom {α : Type} (xs : List α) : List SelEntry → Option α
  | [] => none
  | SelEntry.quit :: _ => none
  | SelEntry.num n :: rest =>
    if 1 ≤ n ∧ n ≤ xs.length then xs.get? (n - 1) else selectFrom xs rest

/-- EC2 instance states (`instance-state-name`). -/
inductive InstState where
  | pending
  | running
  | stopping
  | stopped
  | terminated
  | shuttingDown
deriving DecidableEq, Repr

/-- One EC2 instance as the describe calls return it. -/
structure Ec2Instance where
  id : String
  tags : List Tag
  state : InstState
  publicIp : Option String
  privateIp : String
deriving DecidableEq, Repr

/-- The instance carries a tag with the given key and value (the
`tag:Key` provider-side filters and the tag scans in the source). -/
def hasTagKV (i : Ec2Instance) (k v : String) : Bool :=
  i.tags.any (fun t => t.key == k && t.value == v)

/-- The `tag:Name` filter: the instance has a `Name` tag with value `n`. -/
def hasName (i : Ec2Instance) (n : String) : Bool :=
  hasTagKV i "Name" n

/-- Provider-side state seen by the EC2 flows: the instances in the
region, plus flags saying which provider calls raise.  The
describe-instances listings run outside any `try` block (`ec2.py`
lines 115, 137, 146, 215, 300); the start/stop call (line 191), the
create call (line 251) and the terminate call (line 337) each run
inside one whose handler prints the error and returns. -/
structure Ec2Env where
  instances : List Ec2Instance
  describeFails : Bool
  actionFails : Bool
  createFails : Bool
  terminateFails : Bool

/-- The running-instance listing of `check_running_instances`
(`ec2.py` lines 73-75): all instances in state `running`, with no tag
filter. -/
def runningInstances (insts : List Ec2Instance) : List Ec2Instance :=
  insts.filter (fun i => i.state == InstState.running)

/-- Translation of `check_running_instances` (`ec2.py` lines 62-89): false (blocked)
when at least two instances are running, true otherwise. -/
def check_running_instances (insts : List Ec2Instance) : Bool :=
  if (runningInstances insts).length ≥ 2 then false else true

/-- Start or stop, the two actions of `manage_ec2_instance`. -/
inductive EAction where
  | start
  | stop
deriving DecidableEq, Repr

/-- Value `filter_state` of `ec2.py` line 114: the state an instance must be
in for the requested action. -/
def manageFilterState : EAction → InstState
  | .start => InstState.stopped
  | .stop => InstState.running

/-- Map `valid_states` of `ec2.py` line 178: the state required by the
state re-check just before acting. -/
def manageValidState : EAction → InstState
  | .start => InstState.stopped
  | .stop => InstState.running

/-- The listing of manageable instances (`ec2.py` lines 115-117): a
filter on `instance-state-name` only; no ownership tag is consulted. -/
def manage_candidates (insts : List Ec2Instance) (fs : InstState) : List Ec2Instance :=
  insts.filter (fun i => i.state == fs)

/-- Target resolution of `manage_ec2_instance` (`ec2.py` lines
137-171): search by `Name` tag in the required state, fall back to a
search by instance id (any state), cancel when nothing matches, and on
several matches pick the one whose id the user then enters. -/
def manage_resolve (insts : List Ec2Instance) (fs : InstState)
    (ident chosenId : String) : Option Ec2Instance :=
  let byName := insts.filter (fun i => hasName i ident && i.state == fs)
  let filtered := if byName.isEmpty
    then insts.filter (fun i => i.id == ident)
    else byName
  match filtered with
  | [] => none
  | [i] => some i
  | _ => filtered.find? (fun i => i.id == chosenId)

/-- The describe calls the target search issues (`ec2.py` lines 137 and
146): one by name, one more by id when the name search is empty. -/
def manageSearchCalls (insts : List Ec2Instance) (fs : InstState)
    (ident : String) : List ApiCall :=
  if (insts.filter (fun i => hasName i ident && i.state == fs)).isEmpty
  then [ApiCall.describeInstances, ApiCall.describeInstances]
  else [ApiCall.describeInstances]

/-- The user's answers to the `manage_ec2_instance` prompts. -/
structure ManageScript where
  action : EAction
  identifier : String
  chosenId : String

/-- Translation of `manage_ec2_instance` (`ec2.py` lines 93-196).  The state listing,
the name search and the id search (lines 115, 137, 146) run outside the
`try` block, so a raise there propagates (`crashed`); the state
re-check, the cap re-check for start and the start/stop call run inside
it (lines 176-196).  A blocked start issues the extra listing of
`list_cli_instances` (line 85). -/
def manage_ec2_instance (env : Ec2Env) (s : ManageScript) : FlowResult :=
  if env.describeFails then .crashed [ApiCall.describeInstances]
  else if (manage_candidates env.instances (manageFilterState s.action)).isEmpty then
    .ok [ApiCall.describeInstances]
  else
    match manage_resolve env.instances (manageFilterState s.action) s.identifier s.chosenId with
    | none =>
      .ok (ApiCall.describeInstances ::
        manageSearchCalls env.instances (manageFilterState s.action) s.identifier)
    | some inst =>
      if inst.state == manageValidState s.action then
        match s.action with
        | .start =>
          if check_running_instances env.instances then
            caughtCall env.actionFails
              ((ApiCall.describeInstances ::
                manageSearchCalls env.instances (manageFilterState s.action) s.identifier)
                ++ [ApiCall.describeInstances])
              (ApiCall.startInstance inst.id)
          else
            .ok ((ApiCall.describeInstances ::
              manageSearchCalls env.instances (manageFilterState s.action) s.identifier)
              ++ [ApiCall.describeInstances, ApiCall.describeInstances])
        | .stop =>
          caughtCall env.actionFails
            (ApiCall.describeInstances ::
              manageSearchCalls env.instances (manageFilterState s.action) s.identifier)
            (ApiCall.stopInstance inst.id)
      else
        .ok (ApiCall.describeInstances ::
          manageSearchCalls env.instances (manageFilterState s.action) s.identifier)

/-- AMI choice at the `create_ec2_instance` prompt (`ec2.py` lines
220-233): `u`, `a`, or `q` which calls `exit()`. -/
inductive ImageChoice where
  | ubuntu
  | amazonLinux
  | quitProgram
deriving DecidableEq, Repr

/-- Instance-size choice at the prompt (`ec2.py` lines 235-248). -/
inductive SizeChoice where
  | t3
  | t4
  | quitProgram
deriving DecidableEq, Repr

/-- The user's answers to the `create_ec2_instance` prompts (the final
valid entry of each re-prompting loop). -/
structure CreateScript where
  name : String
  image : ImageChoice
  size : SizeChoice

/-- The tags of `ec2.py` lines 267-271. -/
def createTags (name : String) : List Tag :=
  [⟨"Name", name⟩, ⟨"Owner", OWNER_NAME⟩, ⟨"CreatedBy", OWNER_NAME⟩]

/-- Translation of `create_ec2_instance` (`ec2.py` lines 200-282): name prompt, cap
pre-check (outside any `try`; a blocked cap also lists the CLI
instances), AMI and size prompts with `q` exiting the process, then the
wrapped create call. -/
def create_ec2_instance (env : Ec2Env) (s : CreateScript) : FlowResult :=
  if env.describeFails then .crashed [ApiCall.describeInstances]
  else if !check_running_instances env.instances then
    .ok [ApiCall.describeInstances, ApiCall.describeInstances]
  else
    match s.image, s.size with
    | .quitProgram, _ => .exited [ApiCall.describeInstances]
    | .ubuntu, .quitProgram => .exited [ApiCall.describeInstances]
    | .amazonLinux, .quitProgram => .exited [ApiCall.describeInstances]
    | .ubuntu, .t3 =>
      caughtCall env.createFails [ApiCall.describeInstances]
        (ApiCall.createInstance UBUNTU_AMI INSTANCE_TYPE_T3 s.name (createTags s.name))
    | .ubuntu, .t4 =>
      caughtCall env.createFails [ApiCall.describeInstances]
        (ApiCall.createInstance UBUNTU_AMI INSTANCE_TYPE_T4G s.name (createTags s.name))
    | .amazonLinux, .t3 =>
      caughtCall env.createFails [ApiCall.describeInstances]
        (ApiCall.createInstance AMAZON_LINUX_AMI INSTANCE_TYPE_T3 s.name (createTags s.name))
    | .amazonLinux, .t4 =>
      caughtCall env.createFails [ApiCall.describeInstances]
        (ApiCall.createInstance AMAZON_LINUX_AMI INSTANCE_TYPE_T4G s.name (createTags s.name))

/-- The deletion listing of `delete_instance` (`ec2.py` lines 300-302):
running or stopped instances, again with no ownership-tag filter. -/
def delete_instance_candidates (insts : List Ec2Instance) : List Ec2Instance :=
  insts.filter (fun i => i.state == InstState.running || i.state == InstState.stopped)

/-- Translation of `get_instance_by_name` (`ec2.py` lines 19-58): filter by `Name` tag
(and state when given), drop terminated and shutting-down instances,
cancel when nothing matches, disambiguate several matches by an entered
instance id. -/
def get_instance_by_name (insts : List Ec2Instance) (instance_name : String)
    (filter_state : Option InstState) (chosenId : String) : Option Ec2Instance :=
  let base := insts.filter (fun i => hasName i instance_name &&
    (match filter_state with
     | some st => i.state == st
     | none => true))
  let live := base.filter (fun i =>
    !(i.state == InstState.terminated || i.state == InstState.shuttingDown))
  match live with
  | [] => none
  | [i] => some i
  | _ => live.find? (fun i => i.id == chosenId)

/-- Call classifiers for the cap theorems. -/
def isCreateCall : ApiCall → Bool
  | .createInstance _ _ _ _ => true
  | _ => false

def isStartCall : ApiCall → Bool
  | .startInstance _ => true
  | _ => false

def isStopCall : ApiCall → Bool
  | .stopInstance _ => true
  | _ => false

/-- The flow issued some call satisfying `p`. -/
def hasCall (p : ApiCall → Bool) (r : FlowResult) : Bool :=
  r.calls.any p

/-! Section: S3 (`src/resources/s3.py`) -/

/-- One bucket as the provider reports it.  `tags` is the outcome of
`get_bucket_tagging`: `none` models the `ClientError` raised when the
bucket has no tags or the caller lacks permission. -/
structure Bucket where
  name : String
  tags : Option (List Tag)
  objects : List String
deriving DecidableEq, Repr

/-- Translation of `is_cli_created_bucket` (`s3.py` lines 267-291): true when the tag
probe succeeds and yields a `CreatedBy` tag with the owner value; a
`ClientError` is swallowed and the bucket counts as not ours. -/
def is_cli_created_bucket (b : Bucket) : Bool :=
  match b.tags with
  | none => false
  | some ts => ts.any (fun t => t.key == "CreatedBy" && t.value == OWNER_NAME)

/-- Provider-side state seen by the S3 flows, with flags saying which
provider calls raise.  The `list_buckets` calls of `delete_s3_bucket`
(`s3.py` lines 313 and 339) run outside any `try` block; the
object-delete (line 78) and bucket-delete (line 363) calls run inside
one whose handler prints the error and returns. -/
structure S3Env where
  buckets : List Bucket
  listBucketsFails : Bool
  deleteObjectFails : Bool
  deleteBucketFails : Bool
deriving DecidableEq, Repr

/-- The acceptance condition of the bucket-name prompt in
`delete_s3_bucket` (`s3.py` line 339): the entered name is matched
against the full `list_buckets` result, not against the CLI-owned
listing shown to the user. -/
def bucketNameAccepted (buckets : List Bucket) (name : String) : Bool :=
  buckets.any (fun b => b.name == name)

/-- The bucket-name prompt loop of `delete_s3_bucket` (`s3.py` lines
332-344): `q` cancels, an existing name (per `bucketNameAccepted`) is
accepted, anything else re-prompts with the next scripted entry.  Each
non-`q` iteration issues one `list_buckets` call. -/
def acceptName (buckets : List Bucket) : List String → Option String × List ApiCall
  | [] => (none, [])
  | e :: rest =>
    if e == "q" then (none, [])
    else if bucketNameAccepted buckets e then (some e, [ApiCall.listBuckets])
    else
      let r := acceptName buckets rest
      (r.1, ApiCall.listBuckets :: r.2)

/-- One entry typed at the file-number prompt of
`check_and_delete_files_in_bucket`: `q`, or a number.  Non-numeric
junk only re-prompts, like an out-of-range number. -/
inductive FEntry where
  | fquit
  | fnum (n : Nat)
deriving DecidableEq, Repr

/-- The file-selection loop of `check_and_delete_files_in_bucket`
(`s3.py` lines 67-82): `q` returns false having deleted nothing; an
in-range number issues the delete of that single file and returns true
immediately — unless the delete call raises, in which case the
exception reaches the function-level handler of lines 84-86, which
prints the error and returns false; anything else re-prompts. -/
def fileLoop (deleteObjectFails : Bool) (bucket : String) (files : List String) :
    List FEntry → Bool × List ApiCall
  | [] => (false, [])
  | FEntry.fquit :: _ => (false, [])
  | FEntry.fnum n :: rest =>
    if 1 ≤ n ∧ n ≤ files.length then
      if deleteObjectFails then
        (false, [ApiCall.deleteObject bucket (files.getD (n - 1) "")])
      else
        (true, [ApiCall.deleteObject bucket (files.getD (n - 1) "")])
    else fileLoop deleteObjectFails bucket files rest

/-- Translation of `check_and_delete_files_in_bucket` (`s3.py` lines
42-86): list the objects; report false on an empty bucket, otherwise
run the file-selection loop, which deletes at most one object. -/
def check_and_delete_files_in_bucket (deleteObjectFails : Bool) (bucket : String)
    (objs : List String) (entries : List FEntry) : Bool × List ApiCall :=
  if objs.isEmpty then (false, [ApiCall.listObjects bucket])
  else
    let r := fileLoop deleteObjectFails bucket objs entries
    (r.1, ApiCall.listObjects bucket :: r.2)

/-- The user's answers to the `delete_s3_bucket` prompts. -/
structure DelBucketScript where
  nameEntries : List String
  fileEntries : List FEntry
  confirm : Bool

/-- Translation of `delete_s3_bucket` (`s3.py` lines 295-366): list
all buckets (line 313, outside any `try`: a raise propagates) and probe
each bucket's tags to build the CLI-owned listing; abort when it is
empty; accept a bucket name against the full bucket list; call
`check_and_delete_files_in_bucket` and discard its result (line 347);
ask for confirmation; issue the wrapped `delete_bucket` call
(lines 361-366). -/
def delete_s3_bucket (env : S3Env) (s : DelBucketScript) : FlowResult :=
  if env.listBucketsFails then .crashed [ApiCall.listBuckets]
  else
    let pre := ApiCall.listBuckets ::
      env.buckets.map (fun b => ApiCall.getBucketTagging b.name)
    if (env.buckets.filter is_cli_created_bucket).isEmpty then .ok pre
    else
      let nameRes := acceptName env.buckets s.nameEntries
      match nameRes.1 with
      | none => .ok (pre ++ nameRes.2)
      | some bname =>
        let objs := match env.buckets.find? (fun b => b.name == bname) with
          | some b => b.objects
          | none => []
        let fres := check_and_delete_files_in_bucket env.deleteObjectFails
          bname objs s.fileEntries
        if !s.confirm then .ok (pre ++ nameRes.2 ++ fres.2)
        else
          caughtCall env.deleteBucketFails (pre ++ nameRes.2 ++ fres.2)
            (ApiCall.deleteBucket bname)

/-! Section: Route 53 (`src/resources/route53.py`) -/

/-- One hosted zone as the provider reports it.  `tags` is the outcome
of `list_tags_for_resource`: `none` models the swallowed `ClientError`. -/
structure Zone where
  zid : String
  zname : String
  tags : Option (List Tag)
  records : List DnsRecord
deriving DecidableEq, Repr

/-- Translation of `is_cli_created_zone` (`route53.py` lines 5-24, repeated verbatim
at 218-233, 652-671 and 748-768): the zone carries a `CreatedBy` tag
with the owner value; a `ClientError` counts as not ours. -/
def is_cli_created_zone (z : Zone) : Bool :=
  match z.tags with
  | none => false
  | some ts => ts.any (fun t => t.key == "CreatedBy" && t.value == OWNER_NAME)

/-- Provider-side state seen by the Route 53 flows, with flags saying
which provider calls raise.  The zone listing of `delete_dns_zone`
(`route53.py` line 142) and its record-set listing (line 174) run
outside any `try` block; each record delete of the batch (lines
189-203) and the zone delete (lines 211-216) run inside one. -/
structure R53Env where
  zones : List Zone
  listZonesFails : Bool
  listRecordsFails : Bool
  recordDeleteFails : DnsRecord → Bool
  zoneDeleteFails : Bool

/-- The records of a zone that are not `NS` or `SOA` (`route53.py`
line 175 and lines 550-553). -/
def deletableOf (z : Zone) : List DnsRecord :=
  z.records.filter (fun r => !(r.rtype == "NS" || r.rtype == "SOA"))

/-- The batch of individual DELETE calls of `delete_dns_zone`
(`route53.py` lines 189-203): records are deleted one by one and the
whole operation returns on the first failure.  The first component is
true when every delete succeeded. -/
def batchDelete (fails : DnsRecord → Bool) (zoneId : String) :
    List DnsRecord → Bool × List ApiCall
  | [] => (true, [])
  | r :: rs =>
    if fails r then (false, [ApiCall.changeRecord zoneId "DELETE" r])
    else
      let res := batchDelete fails zoneId rs
      (res.1, ApiCall.changeRecord zoneId "DELETE" r :: res.2)

/-- The user's answers to the `delete_dns_zone` prompts. -/
structure DelZoneScript where
  zoneEntries : List SelEntry
  confirmRecords : Bool
  confirmZone : Bool

/-- Translation of `delete_dns_zone` (`route53.py` lines 129-216): list all zones
(outside any `try`: a raise propagates) and probe each zone's tags;
abort when no zone is CLI-owned; select a zone; list its record sets
(line 174, also outside any `try`); when records other than NS/SOA
exist, ask consent and delete them one by one, aborting everything on
the first failure; finally confirm and issue the wrapped zone delete. -/
def delete_dns_zone (env : R53Env) (s : DelZoneScript) : FlowResult :=
  if env.listZonesFails then .crashed [ApiCall.listHostedZones]
  else
    let pre := ApiCall.listHostedZones ::
      env.zones.map (fun z => ApiCall.listZoneTags z.zid)
    let cliZones := env.zones.filter is_cli_created_zone
    if cliZones.isEmpty then .ok pre
    else
      match selectFrom cliZones s.zoneEntries with
      | none => .ok pre
      | some z =>
        if env.listRecordsFails then .crashed (pre ++ [ApiCall.listRecordSets z.zid])
        else
          let pre2 := pre ++ [ApiCall.listRecordSets z.zid]
          if (deletableOf z).isEmpty then
            if s.confirmZone then
              caughtCall env.zoneDeleteFails pre2 (ApiCall.deleteHostedZone z.zid)
            else .ok pre2
          else if !s.confirmRecords then .ok pre2
          else
            let res := batchDelete env.recordDeleteFails z.zid (deletableOf z)
            if res.1 then
              if s.confirmZone then
                caughtCall env.zoneDeleteFails (pre2 ++ res.2)
                  (ApiCall.deleteHostedZone z.zid)
              else .ok (pre2 ++ res.2)
            else .ok (pre2 ++ res.2)

/-- The user's answers to the `delete_dns_record` prompts. -/
structure DelRecScript where
  zoneEntries : List SelEntry
  recordEntries : List SelEntry
  confirm : Bool

/-- Translation of `delete_dns_record` (`route53.py` lines 490-611).  The zone the
user selects is bound to `selected_zone_id` but never used afterwards:
the record listing (line 540) and the DELETE call (line 608) both read
`zone_id`, the variable leaked from the display loop of line 520, which
after the loop holds the id of the LAST CLI-owned zone.  The embedding
reproduces this: `_selected` is bound and dropped, and `getLast?`
supplies the zone actually used.  The record listing here sits inside a
`try` (lines 539-543), so its failure only aborts the operation. -/
def delete_dns_record (env : R53Env) (s : DelRecScript) : FlowResult :=
  if env.listZonesFails then .crashed [ApiCall.listHostedZones]
  else
    let pre := ApiCall.listHostedZones ::
      env.zones.map (fun z => ApiCall.listZoneTags z.zid)
    let cliZones := env.zones.filter is_cli_created_zone
    if cliZones.isEmpty then .ok pre
    else
      match selectFrom cliZones s.zoneEntries with
      | none => .ok pre
      | some _selected =>
        match cliZones.getLast? with
        | none => .ok pre
        | some lastZ =>
          if env.listRecordsFails then .ok (pre ++ [ApiCall.listRecordSets lastZ.zid])
          else
            let pre2 := pre ++ [ApiCall.listRecordSets lastZ.zid]
            if lastZ.records.isEmpty then .ok pre2
            else if (deletableOf lastZ).isEmpty then .ok pre2
            else
              match selectFrom (deletableOf lastZ) s.recordEntries with
              | none => .ok pre2
              | some r =>
                if !s.confirm then .ok pre2
                else .ok (pre2 ++ [ApiCall.changeRecord lastZ.zid "DELETE" r])

/-- The TXT-value quoting of `create_dns_record` (`route53.py` lines
350-357): a TXT value that does not already both start and end with a
double quote is wrapped in double quotes; everything else is stored as
entered. -/
def storedRecordValue (record_type record_value : String) : String :=
  if record_type == "TXT"
      && !(startsWithL record_value.data "\"".data
            && endsWithL record_value.data "\"".data) then
    "\"" ++ record_value ++ "\""
  else record_value

/-! Section: CLI dispatcher (`src/aws_manager.py`) -/

/-- Number of formal parameters of `create_ec2_instance`: its
definition at `src/resources/ec2.py` line 200 is `def
create_ec2_instance():`, with an empty parameter list. -/
def create_ec2_instance_paramCount : Nat := 0

/-- The parsed `create-instance` subcommand arguments
(`aws_manager.py` lines 19-21, both required). -/
structure CreateInstanceArgs where
  instanceType : String
  ami : String
deriving DecidableEq, Repr

/-- How one run of `aws_manager.main` ends when a subcommand is or is
not given. -/
inductive CliRun where
  | typeErrorCrash
  | createdAndExited (instanceType ami : String)
  | interactiveMenu
deriving DecidableEq, Repr

/-- Dispatch of `aws_manager.main` (`aws_manager.py` lines 23-47): with
the `create-instance` subcommand it evaluates
`create_ec2_instance(args.type, args.ami)` — a call with two positional
arguments.  A Python call raises `TypeError` before entering the callee
whenever the number of arguments differs from the callee's parameter
count, so the call succeeds and is followed by `sys.exit()` only when
`create_ec2_instance` declares exactly two parameters.  Without a
subcommand the interactive menu is shown. -/
def aws_manager_main (cmd : Option CreateInstanceArgs) : CliRun :=
  match cmd with
  | some args =>
    if create_ec2_instance_paramCount == 2 then
      CliRun.createdAndExited args.instanceType args.ami
    else CliRun.typeErrorCrash
  | none => CliRun.interactiveMenu

/-! Section: Concrete fixtures used by the claim theorems -/

/-- A running instance carrying only a `Name` tag: no `CreatedBy` or
`Owner` ownership tag. -/
def webInstance : Ec2Instance :=
  ⟨"i-0web", [⟨"Name", "web"⟩], InstState.running, some "3.3.3.3", "10.0.0.5"⟩

/-- A bucket carrying the tool's ownership tag. -/
def ownBucket : Bucket := ⟨"tool-bucket", some [⟨"CreatedBy", OWNER_NAME⟩], []⟩

/-- A bucket with no tags at all (the tag probe raises). -/
def foreignBucket : Bucket := ⟨"extern-data", none, []⟩

/-- Two running instances with no tags at all. -/
def extRun1 : Ec2Instance := ⟨"i-ext1", [], InstState.running, none, "10.0.0.1"⟩

def extRun2 : Ec2Instance := ⟨"i-ext2", [], InstState.running, none, "10.0.0.2"⟩

/-! Section: C1: ownership scoping -/

/-- C1: the claim that untagged resources never appear in a listing or
selection set fails on the code.  A running instance with no
`CreatedBy` tag appears in the manage (stop) listing and the stop call
is issued against it; it appears in the deletion listing and is
resolved as the deletion target; and the bucket-delete prompt accepts
the name of an existing bucket with no tags, issuing `delete_bucket`
on it. -/
theorem c1_ownership_scoping_violated :
    hasTagKV webInstance "CreatedBy" OWNER_NAME = false
    ∧ manage_candidates [webInstance] (manageFilterState EAction.stop) = [webInstance]
    ∧ hasCall isStopCall
        (manage_ec2_instance ⟨[webInstance], false, false, false, false⟩ ⟨EAction.stop, "web", ""⟩) = true
    ∧ delete_instance_candidates [webInstance] = [webInstance]
    ∧ get_instance_by_name [webInstance] "web" none "" = some webInstance
    ∧ is_cli_created_bucket foreignBucket = false
    ∧ hasCall (fun c => c == ApiCall.deleteBucket "extern-data")
        (delete_s3_bucket ⟨[ownBucket, foreignBucket], false, false, false⟩ ⟨["extern-data"], [], true⟩) = true := by
  decide

/-! Section: C3 and C10: the running-instance cap -/

theorem manageSearchCalls_no_start (insts : List Ec2Instance) (fs : InstState)
    (ident : String) : (manageSearchCalls insts fs ident).any isStartCall = false := by
  unfold manageSearchCalls
  split <;> rfl

theorem cap_blocked_of_two_running (insts : List Ec2Instance)
    (h : 2 ≤ (runningInstances insts).length) :
    check_running_instances insts = false := by
  unfold check_running_instances
  rw [if_pos h]

/-- C3: with two or more running instances both the create flow and the
start path of the manage flow issue no create or start call; with fewer
than two the cap pre-check passes, and the flows proceed to the create
or start call when the remaining prompts are answered. -/
theorem c3_running_instance_cap :
    (∀ (env : Ec2Env) (s : CreateScript),
        2 ≤ (runningInstances env.instances).length →
        hasCall isCreateCall (create_ec2_instance env s) = false)
    ∧ (∀ (env : Ec2Env) (s : ManageScript),
        2 ≤ (runningInstances env.instances).length →
        hasCall isStartCall (manage_ec2_instance env s) = false)
    ∧ (∀ insts : List Ec2Instance,
        (runningInstances insts).length < 2 →
        check_running_instances insts = true)
    ∧ (∀ (env : Ec2Env) (s : CreateScript),
        env.describeFails = false →
        (runningInstances env.instances).length < 2 →
        s.image ≠ ImageChoice.quitProgram →
        s.size ≠ SizeChoice.quitProgram →
        hasCall isCreateCall (create_ec2_instance env s) = true)
    ∧ (∀ (env : Ec2Env) (s : ManageScript) (inst : Ec2Instance),
        env.describeFails = false →
        (runningInstances env.instances).length < 2 →
        s.action = EAction.start →
        manage_resolve env.instances InstState.stopped s.identifier s.chosenId = some inst →
        inst.state = InstState.stopped →
        (manage_candidates env.instances InstState.stopped).isEmpty = false →
        hasCall isStartCall (manage_ec2_instance env s) = true) := by
  refine ⟨?_, ?_, ?_, ?_, ?_⟩
  · intro env s h
    have hcap := cap_blocked_of_two_running env.instances h
    cases hdf : env.describeFails with
    | true => simp [create_ec2_instance, hdf, hasCall, FlowResult.calls, isCreateCall]
    | false =>
      simp [create_ec2_instance, hdf, hcap, hasCall, FlowResult.calls, isCreateCall]
  · intro env s h
    have hcap := cap_blocked_of_two_running env.instances h
    cases hdf : env.describeFails with
    | true => simp [manage_ec2_instance, hdf, hasCall, FlowResult.calls, isStartCall]
    | false =>
      unfold manage_ec2_instance
      rw [hdf]
      simp only [Bool.false_eq_true, if_false]
      split
      · simp [hasCall, FlowResult.calls, isStartCall]
      · cases hres : manage_resolve env.instances (manageFilterState s.action)
            s.identifier s.chosenId with
        | none =>
          simp [hasCall, FlowResult.calls, isStartCall, manageSearchCalls_no_start]
        | some inst =>
          cases hact : s.action with
          | start =>
            by_cases hv : inst.state = manageValidState EAction.start
            · simp [hv, hcap, hasCall, FlowResult.calls, isStartCall,
                manageSearchCalls_no_start, caughtCall_eq]
            · simp [hv, hasCall, FlowResult.calls, isStartCall,
                manageSearchCalls_no_start, caughtCall_eq]
          | stop =>
            by_cases hv : inst.state = manageValidState EAction.stop
            · simp [hv, hasCall, FlowResult.calls, isStartCall,
                manageSearchCalls_no_start, caughtCall_eq]
            · simp [hv, hasCall, FlowResult.calls, isStartCall,
                manageSearchCalls_no_start, caughtCall_eq]
  · intro insts h
    unfold check_running_instances
    rw [if_neg (not_le.mpr h)]
  · intro env s hdf h hi hs
    have hcap : check_running_instances env.instances = true := by
      unfold check_running_instances
      rw [if_neg (not_le.mpr h)]
    obtain ⟨name, img, sz⟩ := s
    cases img <;> cases sz <;>
      simp_all [create_ec2_instance, hasCall, FlowResult.calls, isCreateCall,
        caughtCall_eq]
  · intro env s inst hdf h hact hres hst hne
    have hcap : check_running_instances env.instances = true := by
      unfold check_running_instances
      rw [if_neg (not_le.mpr h)]
    simp [manage_ec2_instance, hdf, hact, hne, hres, hst, hcap,
      manageFilterState, manageValidState, hasCall, FlowResult.calls, isStartCall,
      caughtCall_eq]

/-- Witness for C3 at concrete inputs: a region with two tagless
running instances blocks create and start; a region with one stopped
instance passes the cap and the create and start calls are issued. -/
theorem c3_running_instance_cap_witness :
    hasCall isCreateCall
      (create_ec2_instance ⟨[extRun1, extRun2], false, false, false, false⟩ ⟨"web", ImageChoice.ubuntu, SizeChoice.t3⟩)
      = false
    ∧ hasCall isStartCall
        (manage_ec2_instance ⟨[extRun1, extRun2], false, false, false, false⟩ ⟨EAction.start, "web", ""⟩) = false
    ∧ check_running_instances [⟨"i-0s", [⟨"Name", "web"⟩], InstState.stopped, none, "10.0.0.9"⟩] = true
    ∧ hasCall isCreateCall
        (create_ec2_instance ⟨[], false, false, false, false⟩ ⟨"web", ImageChoice.ubuntu, SizeChoice.t3⟩) = true
    ∧ hasCall isStartCall
        (manage_ec2_instance
          ⟨[⟨"i-0s", [⟨"Name", "web"⟩], InstState.stopped, none, "10.0.0.9"⟩], false, false, false, false⟩
          ⟨EAction.start, "web", ""⟩) = true := by
  refine ⟨?_, ?_, ?_, ?_, ?_⟩
  · exact c3_running_instance_cap.1 _ _ (by decide)
  · exact c3_running_instance_cap.2.1 _ _ (by decide)
  · exact c3_running_instance_cap.2.2.1 _ (by decide)
  · exact c3_running_instance_cap.2.2.2.1 _ _ rfl (by decide) (by decide) (by decide)
  · exact c3_running_instance_cap.2.2.2.2 _
      ⟨EAction.start, "web", ""⟩
      ⟨"i-0s", [⟨"Name", "web"⟩], InstState.stopped, none, "10.0.0.9"⟩
      rfl (by decide) rfl (by decide) rfl (by decide)

/-- C10: the cap pre-check counts running instances with no tag filter:
retagging every instance arbitrarily (including stripping all ownership
tags) never changes its verdict, two tagless running instances block it
by themselves, and the create flow then refuses. -/
theorem c10_cap_counts_all_running :
    (∀ (insts : List Ec2Instance) (f : Ec2Instance → List Tag),
        check_running_instances (insts.map (fun i => { i with tags := f i }))
          = check_running_instances insts)
    ∧ (∀ i1 i2 : Ec2Instance,
        i1.state = InstState.running → i2.state = InstState.running →
        check_running_instances [i1, i2] = false)
    ∧ (∀ (env : Ec2Env) (s : CreateScript) (i1 i2 : Ec2Instance),
        env.instances = [i1, i2] →
        i1.state = InstState.running → i2.state = InstState.running →
        hasCall isCreateCall (create_ec2_instance env s) = false) := by
  refine ⟨?_, ?_, ?_⟩
  · intro insts f
    have hlen : ∀ l : List Ec2Instance,
        ((l.map (fun i => { i with tags := f i })).filter
          (fun i => i.state == InstState.running)).length
          = (l.filter (fun i => i.state == InstState.running)).length := by
      intro l
      induction l with
      | nil => rfl
      | cons i rest ih =>
        cases hb : (i.state == InstState.running) <;>
          simp [List.filter_cons, hb, ih]
    unfold check_running_instances runningInstances
    rw [hlen]
  · intro i1 i2 h1 h2
    simp [check_running_instances, runningInstances, List.filter, h1, h2]
  · intro env s i1 i2 he h1 h2
    have hcap : check_running_instances env.instances = false := by
      rw [he]
      simp [check_running_instances, runningInstances, List.filter, h1, h2]
    cases hdf : env.describeFails with
    | true => simp [create_ec2_instance, hdf, hasCall, FlowResult.calls, isCreateCall]
    | false =>
      simp [create_ec2_instance, hdf, hcap, hasCall, FlowResult.calls, isCreateCall]

/-- Witness for C10 at concrete inputs: the two tagless running
instances `extRun1`, `extRun2` exhaust the cap on their own and create
is refused. -/
theorem c10_cap_counts_all_running_witness :
    check_running_instances [extRun1, extRun2] = false
    ∧ hasCall isCreateCall
        (create_ec2_instance ⟨[extRun1, extRun2], false, false, false, false⟩
          ⟨"web", ImageChoice.amazonLinux, SizeChoice.t4⟩) = false := by
  refine ⟨?_, ?_⟩
  · exact c10_cap_counts_all_running.2.1 extRun1 extRun2 rfl rfl
  · exact c10_cap_counts_all_running.2.2 ⟨[extRun1, extRun2], false, false, false, false⟩
      ⟨"web", ImageChoice.amazonLinux, SizeChoice.t4⟩ extRun1 extRun2 rfl rfl rfl

/-! Section: C4: record deletion targets the leaked, not the selected, zone -/

/-- NS and SOA records of a zone `alpha.com`. -/
def nsAlpha : DnsRecord := ⟨"alpha.com.", "NS", 172800, "ns-11.example-dns.net."⟩

def soaAlpha : DnsRecord := ⟨"alpha.com.", "SOA", 900, "ns-11.example-dns.net. admin.alpha.com."⟩

/-- The deletable record of zone `alpha.com`. -/
def recAlpha : DnsRecord := ⟨"host.alpha.com.", "A", 300, "1.1.1.1"⟩

/-- The deletable record of zone `beta.org`. -/
def recBeta : DnsRecord := ⟨"host.beta.org.", "A", 300, "2.2.2.2"⟩

/-- Two CLI-owned hosted zones. -/
def zoneAlpha : Zone :=
  ⟨"ZALPHA", "alpha.com.", some [⟨"CreatedBy", OWNER_NAME⟩], [nsAlpha, soaAlpha, recAlpha]⟩

def zoneBeta : Zone :=
  ⟨"ZBETA", "beta.org.", some [⟨"CreatedBy", OWNER_NAME⟩],
    [⟨"beta.org.", "NS", 172800, "ns-12.example-dns.net."⟩, recBeta]⟩

/-- Environment and script for the record-deletion flow: the user
selects zone number 1 (`alpha.com`), record number 1, and confirms. -/
def r53EnvC4 : R53Env := ⟨[zoneAlpha, zoneBeta], false, false, fun _ => false, false⟩

def delRecScriptC4 : DelRecScript := ⟨[SelEntry.num 1], [SelEntry.num 1], true⟩

/-- C4: the claim fails on the code.  With two CLI-owned zones the user
selects zone 1 (`alpha.com`), yet the flow lists the records of and
issues the DELETE against zone `ZBETA` — the last listed zone, read
from the loop variable `zone_id` leaked out of the display loop — and
never touches `ZALPHA` or its record. -/
theorem c4_record_delete_wrong_zone :
    selectFrom (r53EnvC4.zones.filter is_cli_created_zone) delRecScriptC4.zoneEntries
      = some zoneAlpha
    ∧ delete_dns_record r53EnvC4 delRecScriptC4 = FlowResult.ok
        [ApiCall.listHostedZones, ApiCall.listZoneTags "ZALPHA", ApiCall.listZoneTags "ZBETA",
         ApiCall.listRecordSets "ZBETA", ApiCall.changeRecord "ZBETA" "DELETE" recBeta]
    ∧ hasCall (fun c => c == ApiCall.changeRecord "ZALPHA" "DELETE" recAlpha)
        (delete_dns_record r53EnvC4 delRecScriptC4) = false
    ∧ hasCall (fun c => c == ApiCall.listRecordSets "ZALPHA")
        (delete_dns_record r53EnvC4 delRecScriptC4) = false := by
  refine ⟨?_, ?_, ?_, ?_⟩ <;> decide

/-! Section: C5: bucket deletion on a non-empty bucket -/

/-- A CLI-owned bucket holding two objects. -/
def dataBucket : Bucket :=
  ⟨"data-bucket", some [⟨"CreatedBy", OWNER_NAME⟩], ["a.txt", "b.txt"]⟩

def s3EnvC5 : S3Env := ⟨[dataBucket], false, false, false⟩

/-- Script: delete file number 1, then confirm bucket deletion. -/
def delBucketScriptA : DelBucketScript := ⟨["data-bucket"], [FEntry.fnum 1], true⟩

/-- Script: cancel the file dialog with `q`, then confirm deletion. -/
def delBucketScriptB : DelBucketScript := ⟨["data-bucket"], [FEntry.fquit], true⟩

/-- C5: the claim fails on the code.  On a bucket holding `a.txt` and
`b.txt`, deleting one file and confirming issues `delete_bucket` while
`b.txt` was never deleted; cancelling the file dialog with `q` issues
`delete_bucket` with no object deleted at all.  The emptiness result of
`check_and_delete_files_in_bucket` is discarded by the caller. -/
theorem c5_delete_bucket_while_nonempty :
    delete_s3_bucket s3EnvC5 delBucketScriptA = FlowResult.ok
        [ApiCall.listBuckets, ApiCall.getBucketTagging "data-bucket", ApiCall.listBuckets,
         ApiCall.listObjects "data-bucket", ApiCall.deleteObject "data-bucket" "a.txt",
         ApiCall.deleteBucket "data-bucket"]
    ∧ hasCall (fun c => c == ApiCall.deleteObject "data-bucket" "b.txt")
        (delete_s3_bucket s3EnvC5 delBucketScriptA) = false
    ∧ hasCall (fun c => c == ApiCall.deleteBucket "data-bucket")
        (delete_s3_bucket s3EnvC5 delBucketScriptB) = true
    ∧ hasCall (fun c => match c with | ApiCall.deleteObject _ _ => true | _ => false)
        (delete_s3_bucket s3EnvC5 delBucketScriptB) = false := by
  refine ⟨?_, ?_, ?_, ?_⟩ <;> decide

/-! Section: C7: TXT value quoting -/

/-- C7: a TXT value that does not already both start and end with a
double quote is stored wrapped in double quotes; a TXT value already so
quoted is stored unchanged; values of every other record type are
stored unchanged. -/
theorem c7_txt_value_quoting :
    (∀ v : String,
        (startsWithL v.data "\"".data && endsWithL v.data "\"".data) = false →
        storedRecordValue "TXT" v = "\"" ++ v ++ "\"")
    ∧ (∀ v : String,
        (startsWithL v.data "\"".data && endsWithL v.data "\"".data) = true →
        storedRecordValue "TXT" v = v)
    ∧ (∀ t v : String, t ≠ "TXT" → storedRecordValue t v = v) := by
  refine ⟨?_, ?_, ?_⟩
  · intro v h
    simp [storedRecordValue, h]
  · intro v h
    simp [storedRecordValue, h]
  · intro t v h
    simp [storedRecordValue, h]

/-- Witness for C7 at concrete inputs: an unquoted TXT value is
wrapped, a quoted one and an A value are unchanged. -/
theorem c7_txt_value_quoting_witness :
    storedRecordValue "TXT" "hello" = "\"" ++ "hello" ++ "\""
    ∧ storedRecordValue "TXT" "\"hi\"" = "\"hi\""
    ∧ storedRecordValue "A" "1.2.3.4" = "1.2.3.4" :=
  ⟨c7_txt_value_quoting.1 "hello" (by decide),
   c7_txt_value_quoting.2.1 "\"hi\"" (by decide),
   c7_txt_value_quoting.2.2 "A" "1.2.3.4" (by decide)⟩

/-! Section: C9: the non-interactive create-instance subcommand -/

/-- C9: the claim fails on the code.  Dispatching the `create-instance`
subcommand calls the zero-parameter `create_ec2_instance` with two
positional arguments, so the run ends in a `TypeError` instead of
creating an instance with the given parameters and exiting. -/
theorem c9_subcommand_type_error :
    aws_manager_main (some ⟨"t3.nano", "ubuntu"⟩) = CliRun.typeErrorCrash
    ∧ (∀ args : CreateInstanceArgs,
        aws_manager_main (some args) ≠ CliRun.createdAndExited args.instanceType args.ami) := by
  refine ⟨by decide, ?_⟩
  intro args
  simp [aws_manager_main, create_ec2_instance_paramCount]

/-- Witness for C9 at a concrete input: with the example subcommand
arguments the run does not end in a successful create-and-exit. -/
theorem c9_subcommand_type_error_witness :
    aws_manager_main (some ⟨"t3.nano", "ubuntu"⟩)
      ≠ CliRun.createdAndExited "t3.nano" "ubuntu" :=
  c9_subcommand_type_error.2 ⟨"t3.nano", "ubuntu"⟩

/-! Section: C6: which provider calls are wrapped -/

theorem zoneDel_not_in_pre (zs : List Zone) (zid : String) :
    ApiCall.deleteHostedZone zid ∉
      (ApiCall.listHostedZones :: zs.map (fun z => ApiCall.listZoneTags z.zid)) := by
  simp [List.mem_map]

theorem batchDelete_fst_true_iff (f : DnsRecord → Bool) (zid : String)
    (rs : List DnsRecord) :
    (batchDelete f zid rs).1 = true ↔ ∀ r ∈ rs, f r = false := by
  induction rs with
  | nil => simp [batchDelete]
  | cons r rest ih =>
    by_cases hf : f r
    · simp only [batchDelete, if_pos hf]
      constructor
      · intro h
        exact absurd h (by simp)
      · intro hall
        exact absurd (hall r (List.mem_cons_self r rest)) (by simp [hf])
    · have hf2 : f r = false := by simpa using hf
      simp [batchDelete, hf2, ih, List.forall_mem_cons]

theorem batchDelete_calls_of_true (f : DnsRecord → Bool) (zid : String) :
    ∀ rs, (batchDelete f zid rs).1 = true →
      (batchDelete f zid rs).2 = rs.map (fun r => ApiCall.changeRecord zid "DELETE" r) := by
  intro rs
  induction rs with
  | nil => intro _; rfl
  | cons r rest ih =>
    intro h
    by_cases hf : f r
    · simp [batchDelete, hf] at h
    · have hf2 : f r = false := by simpa using hf
      simp only [batchDelete, hf2, Bool.false_eq_true, if_false] at h ⊢
      simp [ih h]

theorem batchDelete_calls_are_changes (f : DnsRecord → Bool) (zid : String) :
    ∀ rs c, c ∈ (batchDelete f zid rs).2 →
      ∃ r, c = ApiCall.changeRecord zid "DELETE" r := by
  intro rs
  induction rs with
  | nil =>
    intro c hc
    simp [batchDelete] at hc
  | cons r rest ih =>
    intro c hc
    by_cases hf : f r
    · simp [batchDelete, hf] at hc
      exact ⟨r, hc⟩
    · have hf2 : f r = false := by simpa using hf
      simp [batchDelete, hf2] at hc
      rcases hc with hc | hc
      · exact ⟨r, hc⟩
      · exact ih c hc

theorem batchDelete_fst_false_of_mem {f : DnsRecord → Bool} {zid : String}
    {rs : List DnsRecord} {r : DnsRecord} (hr : r ∈ rs) (hf : f r = true) :
    (batchDelete f zid rs).1 = false := by
  cases hb : (batchDelete f zid rs).1 with
  | false => rfl
  | true => exact absurd ((batchDelete_fst_true_iff f zid rs).mp hb r hr) (by simp [hf])

/-- C8: the zone-delete call of `delete_dns_zone` is issued only for
the selected zone and only when every one of its non-NS/SOA records had
its own successful delete call (which in turn happens only after the
user consents to the batch); and when any record delete fails the
zone-delete call is never issued. -/
theorem c8_zone_deleted_only_after_records :
    (∀ (env : R53Env) (s : DelZoneScript) (zid : String),
        ApiCall.deleteHostedZone zid ∈ (delete_dns_zone env s).calls →
        ∃ z, selectFrom (env.zones.filter is_cli_created_zone) s.zoneEntries = some z
          ∧ z.zid = zid
          ∧ (∀ r ∈ deletableOf z, env.recordDeleteFails r = false
              ∧ ApiCall.changeRecord zid "DELETE" r ∈ (delete_dns_zone env s).calls)
          ∧ (deletableOf z ≠ [] → s.confirmRecords = true))
    ∧ (∀ (env : R53Env) (s : DelZoneScript) (z : Zone) (r : DnsRecord),
        selectFrom (env.zones.filter is_cli_created_zone) s.zoneEntries = some z →
        r ∈ deletableOf z → env.recordDeleteFails r = true →
        ApiCall.deleteHostedZone z.zid ∉ (delete_dns_zone env s).calls) := by
  constructor
  · intro env s zid hmem
    by_cases h1 : env.listZonesFails
    · unfold delete_dns_zone at hmem
      rw [if_pos h1] at hmem
      simp [FlowResult.calls] at hmem
    · unfold delete_dns_zone at hmem
      rw [if_neg h1] at hmem
      by_cases h2 : (env.zones.filter is_cli_created_zone).isEmpty
      · rw [if_pos h2] at hmem
        simp [FlowResult.calls, List.mem_map] at hmem
      · rw [if_neg h2] at hmem
        cases hsel : selectFrom (env.zones.filter is_cli_created_zone) s.zoneEntries with
        | none =>
          rw [hsel] at hmem
          simp [FlowResult.calls, List.mem_map] at hmem
        | some z =>
          rw [hsel] at hmem
          simp only [] at hmem
          by_cases h3 : env.listRecordsFails
          · rw [if_pos h3] at hmem
            simp [FlowResult.calls, List.mem_map] at hmem
          · rw [if_neg h3] at hmem
            by_cases h4 : (deletableOf z).isEmpty
            · rw [if_pos h4] at hmem
              rw [List.isEmpty_iff] at h4
              by_cases h5 : s.confirmZone
              · rw [if_pos h5] at hmem
                rw [caughtCall_eq] at hmem
                simp [FlowResult.calls, List.mem_map] at hmem
                exact ⟨z, rfl, hmem.symm, fun r hr => absurd hr (by simp [h4]),
                  fun hne => absurd h4 hne⟩
              · rw [if_neg h5] at hmem
                simp [FlowResult.calls, List.mem_map] at hmem
            · rw [if_neg h4] at hmem
              cases hc : s.confirmRecords with
              | false =>
                rw [hc] at hmem
                simp [FlowResult.calls, List.mem_map] at hmem
              | true =>
                rw [hc] at hmem
                simp only [Bool.not_true, Bool.false_eq_true, if_false] at hmem
                cases hb : (batchDelete env.recordDeleteFails z.zid (deletableOf z)).1 with
                | false =>
                  rw [hb] at hmem
                  simp only [Bool.false_eq_true, if_false] at hmem
                  simp only [FlowResult.calls, List.mem_append] at hmem
                  rcases hmem with (hmem | hmem) | hmem
                  · exact absurd hmem (by simp [List.mem_map])
                  · simp at hmem
                  · obtain ⟨r, hr⟩ := batchDelete_calls_are_changes _ _ _ _ hmem
                    simp at hr
                | true =>
                  have hcalls := batchDelete_calls_of_true env.recordDeleteFails z.zid
                    (deletableOf z) hb
                  rw [hb] at hmem
                  simp only [if_pos rfl] at hmem
                  by_cases h5 : s.confirmZone
                  · rw [if_pos h5] at hmem
                    have htrace : delete_dns_zone env s = FlowResult.ok
                        ((ApiCall.listHostedZones ::
                            env.zones.map (fun z => ApiCall.listZoneTags z.zid))
                          ++ [ApiCall.listRecordSets z.zid]
                          ++ (deletableOf z).map
                              (fun r => ApiCall.changeRecord z.zid "DELETE" r)
                          ++ [ApiCall.deleteHostedZone z.zid]) := by
                      unfold delete_dns_zone
                      rw [if_neg h1, if_neg h2, hsel]
                      simp only []
                      rw [if_neg h3, if_neg h4, hc]
                      simp only [Bool.not_true, Bool.false_eq_true, if_false]
                      rw [if_pos hb, if_pos h5, caughtCall_eq, hcalls]
                    have hz : zid = z.zid := by
                      rw [caughtCall_eq] at hmem
                      simp only [FlowResult.calls] at hmem
                      rw [hcalls] at hmem
                      simp [List.mem_map] at hmem
                      exact hmem
                    subst hz
                    refine ⟨z, rfl, rfl, ?_, fun _ => rfl⟩
                    intro r hr
                    refine ⟨(batchDelete_fst_true_iff _ _ _).mp hb r hr, ?_⟩
                    rw [htrace]
                    simp only [FlowResult.calls]
                    exact List.mem_append_left _
                      (List.mem_append_right _ (List.mem_map_of_mem _ hr))
                  · rw [if_neg h5] at hmem
                    simp only [FlowResult.calls] at hmem
                    rw [hcalls] at hmem
                    simp [List.mem_map] at hmem
  · intro env s z r hsel hr hf
    by_cases h1 : env.listZonesFails
    · unfold delete_dns_zone
      rw [if_pos h1]
      simp [FlowResult.calls]
    · unfold delete_dns_zone
      rw [if_neg h1]
      by_cases h2 : (env.zones.filter is_cli_created_zone).isEmpty
      · rw [if_pos h2]
        exact zoneDel_not_in_pre env.zones z.zid
      · rw [if_neg h2, hsel]
        simp only []
        by_cases h3 : env.listRecordsFails
        · rw [if_pos h3]
          simp [FlowResult.calls, List.mem_map]
        · rw [if_neg h3]
          have h4 : (deletableOf z).isEmpty = false := by
            cases hi : (deletableOf z).isEmpty with
            | false => rfl
            | true =>
              rw [List.isEmpty_iff] at hi
              rw [hi] at hr
              cases hr
          rw [h4]
          simp only [Bool.false_eq_true, if_false]
          cases hc : s.confirmRecords with
          | false =>
            simp only [Bool.not_false, if_pos rfl]
            simp [FlowResult.calls, List.mem_map]
          | true =>
            simp only [Bool.not_true, Bool.false_eq_true, if_false]
            have hb : (batchDelete env.recordDeleteFails z.zid (deletableOf z)).1 = false :=
              batchDelete_fst_false_of_mem hr hf
            rw [hb]
            simp only [Bool.false_eq_true, if_false]
            intro hmem
            simp only [FlowResult.calls, List.mem_append] at hmem
            rcases hmem with hmem | hmem
            · exact absurd hmem (by simp [List.mem_map])
            · obtain ⟨r2, hr2⟩ := batchDelete_calls_are_changes _ _ _ _ hmem
              simp at hr2

/-- Witness for C8 at concrete inputs: deleting a zone whose single
extra record is removed first, and a zone whose record delete fails and
whose zone-delete call is therefore never issued. -/
theorem c8_zone_deleted_only_after_records_witness :
    (ApiCall.deleteHostedZone "ZALPHA" ∈
      (delete_dns_zone ⟨[zoneAlpha], false, false, fun _ => false, false⟩
        ⟨[SelEntry.num 1], true, true⟩).calls)
    ∧ (∃ z, selectFrom ([zoneAlpha].filter is_cli_created_zone) [SelEntry.num 1] = some z
        ∧ z.zid = "ZALPHA"
        ∧ (∀ r ∈ deletableOf z, (fun _ => false : DnsRecord → Bool) r = false
            ∧ ApiCall.changeRecord "ZALPHA" "DELETE" r ∈
              (delete_dns_zone ⟨[zoneAlpha], false, false, fun _ => false, false⟩
                ⟨[SelEntry.num 1], true, true⟩).calls)
        ∧ (deletableOf z ≠ [] → true = true))
    ∧ ApiCall.deleteHostedZone "ZALPHA" ∉
        (delete_dns_zone ⟨[zoneAlpha], false, false, fun _ => true, false⟩
          ⟨[SelEntry.num 1], true, true⟩).calls := by
  refine ⟨by decide, ?_, ?_⟩
  · exact c8_zone_deleted_only_after_records.1
      ⟨[zoneAlpha], false, false, fun _ => false, false⟩ ⟨[SelEntry.num 1], true, true⟩
      "ZALPHA" (by decide)
  · exact c8_zone_deleted_only_after_records.2
      ⟨[zoneAlpha], false, false, fun _ => true, false⟩ ⟨[SelEntry.num 1], true, true⟩
      zoneAlpha recAlpha (by decide) (by decide) rfl

end AwsCli
